import Mathlib

/-!
Shallow embedding of the tiered conversation memory manager and the pipeline
orchestrator of the sales-assistant repository.

Modelled components (file paths refer to the repository source):
* `database/redis/schema.py` — `ConversationBuffer`, `RedisMemoryManager`
  (only the turn log is modelled; the ActiveContext hash holds no state any
  claim observes, so it is omitted from the state record).
* `workflow/memory_manager.py` — `MemoryManager.receive_input`,
  `_apply_sliding_window`, `_save_messages_to_postgres`,
  `_check_and_trigger_summary`, `_trigger_summary_agents`,
  `_delete_old_messages`.
* `database/postgres/session_service.py` — `update_session_handoff`,
  `get_or_create_session` (only the fields the claims observe: the durable
  turn rows, session existence and `handoff_reason`; the Customer table and
  the free-form metadata dictionary are outside the modelled state).
* `agents/orchestrator_agent.py` — `OrchestratorAgent.run`.
* `agents/intent_agent.py` — `IntentAgent.run`.
* `workflow/orchestrator.py` — `WorkflowOrchestrator.process_user_message`,
  `_heuristic_pick_combo`, the price-keyword fallback, the guardrail /
  escalation post-processing and the handoff persistence step.

External effects (the hosted LLM calls, database availability, UUID validity
of the session id) are injected as explicit parameters, so every function is
a pure, executable Lean definition. Python machine behaviour is embedded
faithfully: negative-index slices, string truthiness in `or`, dict-order
iteration of the keyword map, and the narrow `except` clauses that determine
which failures are swallowed and which propagate.
-/

/-- One turn in the hot buffer (`ConversationMessage` in
`database/redis/models.py`). `metadata` is flattened into `tokens`/`intent`,
the only metadata fields the modelled code reads. -/
structure ConversationMessage where
  role : String
  content : String
  tokens : Nat
  intent : Option String
  timestamp : Nat
deriving Repr, DecidableEq

/-- Redis-side state for one conversation: the `agent:stm:chat:{sid}` list,
oldest first (RPUSH appends at the tail). -/
structure RedisState where
  buffer : List ConversationMessage
deriving Repr, DecidableEq

/-- Durable (PostgreSQL) state for one conversation: the `messages` rows in
chronological order, whether the `sessions` row exists, and its
`handoff_reason` column. -/
structure PgState where
  turns : List ConversationMessage
  sessionExists : Bool
  handoff_reason : Option String
deriving Repr, DecidableEq

/-- Failure-injection environment for one call: whether the session id parses
as a UUID and whether the durable store accepts reads/writes. The two
summary-agent results are irrelevant to the modelled state (they feed the
Customer table and the metadata dictionary) and are omitted. -/
structure Env where
  validUuid : Bool
  dbOk : Bool
deriving Repr, DecidableEq

/-- Python `xs[-k:]` on a list (used for `messages[-keep_count:]`): the last
`k` elements, the whole list when `k = 0` (since `-0 == 0` starts at the
front) or when `k ≥ len`. -/
def pyTail (k : Nat) (xs : List α) : List α :=
  if k = 0 then xs else xs.drop (xs.length - k)

/-- Python `xs[:-k]` (used for `messages[:-keep_count]`): everything except
the last `k` elements; the empty list when `k = 0` (since `-0 == 0` ends at
the front) or when `k ≥ len`. -/
def pyDropTail (k : Nat) (xs : List α) : List α :=
  if k = 0 then [] else xs.take (xs.length - k)

namespace ConversationBuffer

/-- `ConversationBuffer.add_message` / `RedisMemoryManager.add_interaction`:
RPUSH of the new message (TTL refresh has no effect on the modelled state). -/
def add_message (role content : String) (tokens : Nat) (intent : Option String)
    (now : Nat) (st : RedisState) : RedisState :=
  { st with buffer := st.buffer ++ [⟨role, content, tokens, intent, now⟩] }

/-- `ConversationBuffer.trim_conversation`: `LTRIM key -n -1` keeps the last
`n` entries; a non-positive argument is a no-op (`if max_messages > 0`). -/
def trim_conversation (n : Nat) (st : RedisState) : RedisState :=
  if 0 < n then { st with buffer := st.buffer.drop (st.buffer.length - n) } else st

end ConversationBuffer

/-- `RedisMemoryManager.get_conversation_history(max_messages)`: when
`max_messages` is truthy it first LTRIMs the stored list to the newest
`max_messages` entries and only then reads it — the read mutates the store.
Returns the state after the call together with the returned messages. -/
def get_conversation_history (maxMessages : Option Nat) (st : RedisState) :
    RedisState × List ConversationMessage :=
  match maxMessages with
  | some n =>
      if n ≠ 0 then
        let st2 := ConversationBuffer.trim_conversation n st
        (st2, st2.buffer)
      else (st, st.buffer)
  | none => (st, st.buffer)

namespace MemoryManager

/-- `MemoryManager._save_messages_to_postgres`: if the session id is not a
valid UUID the save is silently skipped (`return`); any database error is
caught, rolled back and logged (`except Exception`); in both cases the
function returns normally, so the caller cannot observe the failure. On
success the evicted messages are appended as new durable rows. -/
def save_messages_to_postgres (env : Env) (msgs : List ConversationMessage)
    (pg : PgState) : PgState :=
  if env.validUuid then
    if env.dbOk then { pg with turns := pg.turns ++ msgs } else pg
  else pg

/-- `MemoryManager._apply_sliding_window`: read the whole buffer, split at
`keep_count = max_buffer_messages // 2`, save the old slice to PostgreSQL,
then unconditionally LTRIM the buffer to the newest `keep_count` entries —
the trim is not guarded by the outcome of the save. -/
def apply_sliding_window (maxBuf : Nat) (env : Env) (st : RedisState)
    (pg : PgState) : RedisState × PgState :=
  let messages := st.buffer
  let keep := maxBuf / 2
  let oldMessages := pyDropTail keep messages
  let pg2 := if oldMessages.isEmpty then pg else save_messages_to_postgres env oldMessages pg
  let st2 := ConversationBuffer.trim_conversation keep st
  (st2, pg2)

/-- The summary watermark test in `_check_and_trigger_summary`:
`message_count >= 50 and message_count % 50 == 0`. -/
def summary_trigger (messageCount : Nat) : Bool :=
  decide (50 ≤ messageCount) && decide (messageCount % 50 = 0)

/-- Whether `_check_and_trigger_summary` reaches `_trigger_summary_agents`:
it returns early when the session id is not a UUID, swallows the count-query
error when the database is down, and otherwise fires exactly on the
watermark test over the durable row count. -/
def compaction_fires (env : Env) (pg : PgState) : Bool :=
  env.validUuid && env.dbOk && summary_trigger pg.turns.length

/-- `MemoryManager._delete_old_messages`: delete all durable rows for the
session except the newest 50. -/
def delete_old_messages (pg : PgState) : PgState :=
  { pg with turns := pg.turns.drop (pg.turns.length - 50) }

/-- `MemoryManager._trigger_summary_agents`: runs the two summary agents over
the newest 50 durable rows, merges their results into the Customer row and
the session metadata (both outside the modelled state; each merge swallows
its own failures), then deletes all durable rows but the newest 50. With an
invalid session id or a failing database the body returns before reaching the
delete. -/
def trigger_summary_agents (env : Env) (pg : PgState) : PgState :=
  if env.validUuid && env.dbOk then delete_old_messages pg else pg

/-- `MemoryManager._check_and_trigger_summary`: count the durable rows and
fire the summary agents on the watermark test. There is no record of the
last multiple that fired: the decision is a pure function of the count. -/
def check_and_trigger_summary (env : Env) (pg : PgState) : PgState :=
  if compaction_fires env pg then trigger_summary_agents env pg else pg

/-- `MemoryManager.receive_input`: append the turn to the hot buffer, read
the buffer length, apply the sliding window when it exceeds
`max_buffer_messages`, then run the summary watermark check. -/
def receive_input (maxBuf : Nat) (env : Env) (role content : String)
    (tokens : Nat) (intent : Option String) (now : Nat)
    (st : RedisState) (pg : PgState) : RedisState × PgState :=
  let st1 := ConversationBuffer.add_message role content tokens intent now st
  let messages := st1.buffer
  let (st2, pg2) :=
    if maxBuf < messages.length then apply_sliding_window maxBuf env st1 pg
    else (st1, pg)
  let pg3 := check_and_trigger_summary env pg2
  (st2, pg3)

end MemoryManager

/-! ## Analysis-step layer (`agents/`)

Each step calls a hosted LLM (`self.agent.run(prompt)`) and then extracts a
JSON object from the reply text. The call itself is outside a `try` block;
only `json.JSONDecodeError` and `ValueError` from the extraction are caught.
The three observable outcomes of the external call are therefore: the call
raised, the reply held no decodable JSON object, or a JSON object was
decoded. Pydantic validation of the decoded object runs outside any handler.
-/

/-- Outcome of one hosted-LLM call as the step's parsing code observes it. -/
inductive LlmOutcome (J : Type) where
  /-- `self.agent.run(prompt)` raised (network error, quota, …). -/
  | callFailure
  /-- The reply text held no decodable JSON object (`ValueError` /
  `json.JSONDecodeError`, both caught by the step's fallback). The payload is
  the raw reply text, which some fallbacks reuse. -/
  | noJson (raw : String)
  /-- A JSON object was decoded from the reply. -/
  | json (j : J)
deriving Repr, DecidableEq

/-- `PolicyFlags` (`agents/models.py`). -/
structure PolicyFlags where
  legal : Bool := false
  medical : Bool := false
  financial_risk : Bool := false
  high_technical : Bool := false
deriving Repr, DecidableEq

/-- `AnalyseHandoffOutput` (`agents/models.py`); the emotion-score record is
carried opaquely by the code paths the claims cover and is omitted. -/
structure AnalyseHandoffOutput where
  user_id : String
  policy_flags : PolicyFlags
  handoff_required : Bool
  handoff_reason : Option String := none
  risk_level : String
  confidence : Rat
deriving Repr, DecidableEq

/-- `IntentAgentOutput` (`agents/models.py`). -/
structure IntentAgentOutput where
  user_id : String
  session_name : String := ""
  clean_intent_text : String
  intent_code : String
  confidence : Rat
deriving Repr, DecidableEq

/-- `IntentAgentInput` (`agents/models.py`). -/
structure IntentAgentInput where
  user_id : String
  session_id : String := ""
  raw_message : String
  language : String := "vi"
deriving Repr, DecidableEq

/-- The fields of the decoded JSON object that `IntentAgent.run` reads, each
`none` when the key is absent. -/
structure IntentJson where
  session_name : Option String := none
  clean_intent_text : Option String := none
  intent_code : Option String := none
  confidence : Option Rat := none
deriving Repr, DecidableEq

/-- `IntentAgent.run`: the LLM call is not guarded, so its failure propagates
to the caller; a reply without decodable JSON takes the documented fallback
(`intent_code = "unknown"`, `confidence = 0.5`, the raw reply as the clean
text); a decoded object is passed to `IntentAgentOutput(**json_data)` with
only `user_id` overwritten, so a missing required field or an out-of-range
confidence raises a Pydantic `ValidationError` out of the method. -/
def intentAgentRun (inp : IntentAgentInput) (llm : LlmOutcome IntentJson) :
    Except String IntentAgentOutput :=
  match llm with
  | .callFailure => .error "LLM call raised; no handler in IntentAgent.run"
  | .noJson raw =>
      .ok { user_id := inp.user_id, session_name := inp.session_id,
            clean_intent_text := raw, intent_code := "unknown",
            confidence := (1 : Rat) / 2 }
  | .json j =>
      match j.clean_intent_text, j.intent_code, j.confidence with
      | some text, some code, some conf =>
          if 0 ≤ conf ∧ conf ≤ 1 then
            .ok { user_id := inp.user_id, session_name := j.session_name.getD "",
                  clean_intent_text := text, intent_code := code,
                  confidence := conf }
          else .error "ValidationError: confidence out of range"
      | _, _, _ => .error "ValidationError: required field missing"

/-- `OrchestratorAgentInput` (`agents/models.py`), emotion scores omitted as
above. -/
structure OrchestratorAgentInput where
  user_id : String
  clean_intent_text : String
  intent_code : String
  policy_flags : PolicyFlags
  handoff_required : Bool
  handoff_reason : Option String := none
  risk_level : String
deriving Repr, DecidableEq

/-- `OrchestratorAgentOutput` (`agents/models.py`): `task` is a plain,
unconstrained string field. -/
structure OrchestratorAgentOutput where
  user_id : String
  task : String
  clean_intent_text : String
  intent_code : String
  policy_flags : PolicyFlags
  handoff_required : Bool
  handoff_reason : Option String := none
  risk_level : String
  task_reason : Option String := none
deriving Repr, DecidableEq

/-- The fields of the decoded JSON object that `OrchestratorAgent.run` reads.
A key that is absent or JSON `null` is `none` (for the optional fields both
cases produce the same output). -/
structure RoutingJson where
  task : Option String := none
  clean_intent_text : Option String := none
  intent_code : Option String := none
  policy_flags : Option PolicyFlags := none
  handoff_required : Option Bool := none
  handoff_reason : Option String := none
  risk_level : Option String := none
  task_reason : Option String := none
deriving Repr, DecidableEq

/-- `OrchestratorAgent.run`: the deterministic task rule
(`handoff_required → human_handle`) is applied only inside the fallback
branch taken when no JSON could be decoded; a decoded object's `task` is used
as-is, whatever the input's handoff fields say. After decoding, the method
backfills `user_id`, `clean_intent_text`, `intent_code`, `policy_flags`,
`handoff_required` and `risk_level` from the input when missing — but not
`task` (required by the model: missing means `ValidationError`) and not
`handoff_reason` (optional, defaulting to `None`). An unguarded LLM-call
failure propagates. -/
def orchestratorAgentRun (inp : OrchestratorAgentInput)
    (llm : LlmOutcome RoutingJson) : Except String OrchestratorAgentOutput :=
  match llm with
  | .callFailure => .error "LLM call raised; no handler in OrchestratorAgent.run"
  | .noJson _ =>
      .ok { user_id := inp.user_id,
            task := if inp.handoff_required then "human_handle" else "sales_task",
            clean_intent_text := inp.clean_intent_text,
            intent_code := inp.intent_code,
            policy_flags := inp.policy_flags,
            handoff_required := inp.handoff_required,
            handoff_reason := inp.handoff_reason,
            risk_level := inp.risk_level,
            task_reason := some "Fallback task selection" }
  | .json j =>
      match j.task with
      | none => .error "ValidationError: field task missing"
      | some t =>
          .ok { user_id := inp.user_id,
                task := t,
                clean_intent_text := j.clean_intent_text.getD inp.clean_intent_text,
                intent_code := j.intent_code.getD inp.intent_code,
                policy_flags := j.policy_flags.getD inp.policy_flags,
                handoff_required := j.handoff_required.getD inp.handoff_required,
                handoff_reason := j.handoff_reason,
                risk_level := j.risk_level.getD inp.risk_level,
                task_reason := j.task_reason }

/-- `GuardrailOutput` (`agents/models.py`). -/
structure GuardrailOutput where
  approved : Bool
  modified_text : Option String := none
  sales_doublecheck : Bool := false
  reason_recheck : Option String := none
deriving Repr, DecidableEq

/-! ## Workflow orchestrator (`workflow/orchestrator.py`) -/

/-- Python substring membership over character lists:
`needle in hay` tests for a contiguous occurrence. -/
def listContainsAux (needle : List Char) : List Char → Bool
  | [] => needle.isEmpty
  | h :: t => needle.isPrefixOf (h :: t) || listContainsAux needle t

/-- Python `needle in haystack`: strings are handled as their character
lists throughout this section. -/
def strContains (hay needle : List Char) : Bool :=
  listContainsAux needle hay

/-- Python `str.strip()`: whitespace removed from both ends
(`Char.isWhitespace` covers the ASCII whitespace these call sites see). -/
def pyStrip (s : List Char) : List Char :=
  ((s.dropWhile Char.isWhitespace).reverse.dropWhile Char.isWhitespace).reverse

/-- `_normalize_text`: `(s or "").strip().lower()`. `Char.toLower` lowers the
ASCII range; every string the modelled call sites pass is already lowercase
outside ASCII, where Python's `lower()` agrees. -/
def normalize_text (s : String) : List Char :=
  (pyStrip s.data).map Char.toLower

/-- Python `" ".join(parts)`. -/
def joinSpace : List (List Char) → List Char
  | [] => []
  | [x] => x
  | x :: xs => x ++ ' ' :: joinSpace xs

/-- `ProductCombo` (`agents/models.py`): `stock` is a non-negative integer,
`price` a non-negative number. -/
structure ProductCombo where
  combo_id : String
  products : List String
  stock : Nat
  price : Rat
deriving Repr, DecidableEq

/-- The `keyword_map` dictionary in `_heuristic_pick_combo`, in insertion
order; the keys are unused by the loop (`_k`), so only the value lists are
kept. -/
def keyword_map : List (List String) :=
  [["hoodie", "áo hoodie", "ao hoodie"],
   ["áo thun", "ao thun", "t-shirt", "tee"],
   ["áo sơ mi", "ao so mi", "sơ mi", "so mi"]]

/-- `_heuristic_pick_combo`: join the normalized message and requirement
texts into one haystack; first return the first combo one of whose product
names (underscores replaced by spaces) occurs in the haystack; otherwise
return the first combo that shares a Vietnamese keyword group with the
haystack; otherwise nothing. -/
def heuristic_pick_combo (rawMessage : String) (explicit implicit : List String)
    (combos : List ProductCombo) : Option ProductCombo :=
  let haystack := joinSpace
    (normalize_text rawMessage ::
      (explicit.map normalize_text ++ implicit.map normalize_text))
  if (pyStrip haystack).isEmpty then none
  else
    let byName := combos.findSome? fun c =>
      c.products.findSome? fun p =>
        let token := (normalize_text p).map fun ch => if ch = '_' then ' ' else ch
        if !token.isEmpty && strContains haystack token then some c else none
    match byName with
    | some c => some c
    | none =>
        combos.findSome? fun c =>
          let comboName := joinSpace
            (normalize_text c.combo_id :: c.products.map normalize_text)
          keyword_map.findSome? fun kws =>
            if kws.any (fun kw => strContains haystack kw.data)
                && kws.any (fun kw => strContains comboName kw.data)
            then some c else none

/-- The price/availability keywords of the fallback gate
(`workflow/orchestrator.py`, phase 2.4b). -/
def price_keywords : List String := ["giá", "bao nhiêu", "price", "cost", "tiền"]

/-- `maybe_price_intent`: some price keyword occurs in the normalized raw
message. -/
def maybe_price_intent (rawMessage : String) : Bool :=
  price_keywords.any fun kw => strContains (normalize_text rawMessage) kw.data

/-- Resolving `upsell_result.selected_combo` against the candidate list:
`if upsell_result.selected_combo:` is Python string truthiness, so an empty
id is treated like no selection; otherwise `next((c for c in available_combos
if c.combo_id == selected), None)`. -/
def lookup_selected_combo (sel : Option String) (combos : List ProductCombo) :
    Option ProductCombo :=
  match sel with
  | some cid => if cid.isEmpty then none else combos.find? fun c => c.combo_id == cid
  | none => none

/-- Phase 2.4/2.4b combo selection: the offer-selection step's id lookup,
then — only when that produced nothing and the raw message carries a price
keyword — the deterministic heuristic. -/
def select_combo (rawMessage : String) (explicit implicit : List String)
    (sel : Option String) (combos : List ProductCombo) : Option ProductCombo :=
  match lookup_selected_combo sel combos with
  | some c => some c
  | none =>
      if maybe_price_intent rawMessage then
        heuristic_pick_combo rawMessage explicit implicit combos
      else none

/-- The three demo combos of the `else` branch of phase 2.4
(`workflow/orchestrator.py`, the non-DB catalog path). -/
def demo_combos : List ProductCombo :=
  [{ combo_id := "DEMO-01", products := ["ao_thun_basic"], stock := 10, price := 199000 },
   { combo_id := "DEMO-02", products := ["ao_so_mi"], stock := 5, price := 349000 },
   { combo_id := "DEMO-03", products := ["ao_hoodie"], stock := 12, price := 499000 }]

/-- Candidate combos on the compiled configuration (`config.py` hardcodes
`USE_DB_CATALOG = True`): the combos mapped from the shop's DB products, or —
when the DB list is empty — the two-combo fallback, whose
`ProductCombo(combo_id=…, products=…, stock=…)` constructions omit the
required `price` field and therefore raise a Pydantic `ValidationError`. -/
def available_combos (dbCombos : List ProductCombo) :
    Except String (List ProductCombo) :=
  if dbCombos.isEmpty then
    .error "ValidationError: ProductCombo requires field price"
  else .ok dbCombos

/-- Python `x or y` for an optional/empty string `x`: `None` and `""` are
falsy (`guardrail_result.modified_text or sales_result.response_text`). -/
def pyOrStr (m : Option String) (s : String) : String :=
  match m with
  | some t => if t.isEmpty then s else t
  | none => s

/-- The fixed safe fallback used when the guardrail rejects. -/
def fallback_response : String :=
  "Mình chưa thể trả lời chắc chắn nội dung này ngay lúc này. Mình sẽ chuyển cho nhân viên hỗ trợ tiếp nhé."

/-- The escalation notice prepended when the routed task is `human_handle`. -/
def handoff_note : String := "(Mình đã ghi nhận để nhân viên hỗ trợ thêm)\n\n"

/-- The post-response escalation persistence (`workflow/orchestrator.py`,
`get_or_create_session` + `update_session_handoff` inside `try/except`): with
a valid session UUID and a working database the session row exists afterwards
and `update_session_handoff` assigns `handoff_reason` only when the value is
not `None`; any failure is logged and swallowed, leaving the state as it
was. -/
def persist_handoff_state (env : Env) (reason : Option String) (pg : PgState) :
    PgState :=
  if env.validUuid && env.dbOk then
    let pg1 : PgState := { pg with sessionExists := true }
    match reason with
    | some r => { pg1 with handoff_reason := some r }
    | none => pg1
  else pg

/-- One pipeline run's inputs: the inbound message, the failure environment,
and the typed outputs the analysis steps returned on this run (each step is
an opaque external unit of work; a run that reaches a step's consumer has a
value for it). The routing step is modelled at its LLM boundary because its
parsing logic is itself under test. -/
structure PipelineParams where
  userId : String
  rawMessage : String
  now : Nat
  env : Env
  intentRes : IntentAgentOutput
  handoffRes : AnalyseHandoffOutput
  routingLlm : LlmOutcome RoutingJson
  reqExplicit : List String
  reqImplicit : List String
  dbCombos : List ProductCombo
  upsellSelected : Option String
  salesText : String
  guardRes : GuardrailOutput

/-- The orchestrator input assembled from the phase-1 results
(`workflow/orchestrator.py`, lines building `OrchestratorAgentInput`). -/
def orchInputOf (p : PipelineParams) : OrchestratorAgentInput :=
  { user_id := p.userId,
    clean_intent_text := p.intentRes.clean_intent_text,
    intent_code := p.intentRes.intent_code,
    policy_flags := p.handoffRes.policy_flags,
    handoff_required := p.handoffRes.handoff_required,
    handoff_reason := p.handoffRes.handoff_reason,
    risk_level := p.handoffRes.risk_level }

/-- What a completed `process_user_message` run leaves behind: the response
text delivered to the user and both memory tiers. -/
structure PipelineResult where
  final_response_text : String
  redis : RedisState
  pg : PgState
deriving Repr, DecidableEq

/-- `WorkflowOrchestrator.process_user_message`. An uncaught Python exception
is an `.error` carrying the message and the two memory states at the moment
it is raised. Control flow follows the source: phase 0 stores the user turn;
phase 1 runs the two analyses and the routing step (whose own exceptions are
unhandled); the sales block runs for `sales_task` and `human_handle` and
computes the final text from the guardrail verdict, prepending the escalation
notice for `human_handle`; for any other task string the block is skipped and
the assistant `receive_input` call reads the never-assigned
`final_response_text`, raising `UnboundLocalError`; finally the assistant
turn is stored and, for `human_handle`, the handoff is persisted
best-effort. -/
def process_user_message (p : PipelineParams) (st0 : RedisState) (pg0 : PgState) :
    Except (String × RedisState × PgState) PipelineResult :=
  let s1 := MemoryManager.receive_input 50 p.env "user" p.rawMessage 0 none p.now st0 pg0
  match orchestratorAgentRun (orchInputOf p) p.routingLlm with
  | .error e => .error (e, s1.1, s1.2)
  | .ok orch =>
      if orch.task = "sales_task" ∨ orch.task = "human_handle" then
        let s2 := get_conversation_history (some 20) s1.1
        match available_combos p.dbCombos with
        | .error e => .error (e, s2.1, s1.2)
        | .ok combos =>
            let _selected := select_combo p.rawMessage p.reqExplicit p.reqImplicit
              p.upsellSelected combos
            let base :=
              if p.guardRes.approved then pyOrStr p.guardRes.modified_text p.salesText
              else fallback_response
            let finalText := if orch.task = "human_handle" then handoff_note ++ base else base
            let s3 := MemoryManager.receive_input 50 p.env "assistant" finalText 0
              (some p.intentRes.intent_code) p.now s2.1 s1.2
            let pg3 :=
              if orch.task = "human_handle" then
                persist_handoff_state p.env orch.handoff_reason s3.2
              else s3.2
            .ok { final_response_text := finalText, redis := s3.1, pg := pg3 }
      else
        .error ("UnboundLocalError: final_response_text referenced before assignment",
          s1.1, s1.2)

/-! ## Concrete fixtures used by the theorems and their witnesses -/

/-- A numbered user turn, for building concrete buffers. -/
def mkTurn (i : Nat) : ConversationMessage :=
  { role := "user", content := toString i, tokens := 0, intent := none, timestamp := 0 }

/-- Environment with a valid session UUID and a working database. -/
def envOk : Env := { validUuid := true, dbOk := true }

/-- Environment whose session id does not parse as a UUID. -/
def envBadUuid : Env := { validUuid := false, dbOk := true }

/-- Environment whose durable store rejects writes. -/
def envDbDown : Env := { validUuid := true, dbOk := false }

/-- Empty hot buffer. -/
def emptyRedis : RedisState := { buffer := [] }

/-- Fresh durable state: no rows, no session. -/
def emptyPg : PgState := { turns := [], sessionExists := false, handoff_reason := none }

/-- A hot buffer already holding 50 turns (at the soft bound). -/
def st50 : RedisState := { buffer := (List.range 50).map mkTurn }

/-- A hot buffer holding 21 turns. -/
def st21 : RedisState := { buffer := (List.range 21).map mkTurn }

/-- Durable state with exactly 50 archived turns and an existing session. -/
def pg50 : PgState := { turns := (List.range 50).map mkTurn, sessionExists := true, handoff_reason := none }

/-! ## Claim theorems -/

/-- C1. Counter-evidence by evaluation: with 50 turns buffered, a
`receive_input` that triggers eviction under a failing durable write — here
the silent skip for a non-UUID session id, and likewise a down database —
still truncates the hot buffer to 25 turns while archiving nothing, and the
call returns normally, reporting nothing: 26 turns are lost. The claim's
required behaviour (truncation must not proceed; failure reported) does not
hold. -/
theorem c1_eviction_truncates_despite_failed_save :
    (MemoryManager.receive_input 50 envBadUuid "user" "next" 0 none 0 st50 emptyPg).1.buffer.length = 25
    ∧ (MemoryManager.receive_input 50 envBadUuid "user" "next" 0 none 0 st50 emptyPg).2.turns = []
    ∧ mkTurn 0 ∉ (MemoryManager.receive_input 50 envBadUuid "user" "next" 0 none 0 st50 emptyPg).1.buffer
    ∧ (MemoryManager.receive_input 50 envDbDown "user" "next" 0 none 0 st50 emptyPg).1.buffer.length = 25
    ∧ (MemoryManager.receive_input 50 envDbDown "user" "next" 0 none 0 st50 emptyPg).2.turns = [] := by
  refine ⟨rfl, rfl, ?_, rfl, rfl⟩
  decide

/-- C2. Counter-evidence by evaluation: with `handoff_required = true`,
`risk_level = "high"` and a policy flag set, a routing-step LLM reply that
decodes to `{"task": "sales_task"}` is returned as-is: the deterministic
override is not applied by the orchestrator (it exists only in the
parse-failure fallback), so the routed task is `"sales_task"`, not
`"human_handle"`. -/
theorem c2_override_left_to_routing_step :
    (orchestratorAgentRun
        { user_id := "u1", clean_intent_text := "t", intent_code := "complaint",
          policy_flags := { legal := true }, handoff_required := true,
          handoff_reason := some "legal threat", risk_level := "high" }
        (.json { task := some "sales_task" })).map (fun o => o.task)
      = Except.ok "sales_task" := rfl

/-- C6. Counter-evidence by evaluation: an analysis step does raise. The
intent step's LLM call is outside every `try` block, so a call failure
propagates to the caller; and a reply that decodes to a JSON object missing
the model's required fields raises a Pydantic `ValidationError` after the
fallback's `except` clause is already out of scope. Neither path returns the
documented safe default. -/
theorem c6_intent_step_raises :
    intentAgentRun { user_id := "u1", raw_message := "hi" } .callFailure
      = .error "LLM call raised; no handler in IntentAgent.run"
    ∧ intentAgentRun { user_id := "u1", raw_message := "hi" } (.json {})
      = .error "ValidationError: required field missing" :=
  ⟨rfl, rfl⟩

/-- C3. Counterexample to the idempotence half of the claim: with exactly 50
durable turns the watermark check fires, the firing leaves the durable count
at 50 (the compaction keeps the newest 50 rows, and here the whole modelled
state is unchanged), and a re-check before the count changes fires again for
the same multiple — there is no per-multiple latch. -/
theorem c3_compaction_refires_at_same_multiple :
    MemoryManager.compaction_fires envOk pg50 = true
    ∧ MemoryManager.check_and_trigger_summary envOk pg50 = pg50
    ∧ MemoryManager.compaction_fires envOk
        (MemoryManager.check_and_trigger_summary envOk pg50) = true := by
  refine ⟨rfl, ?_, ?_⟩ <;> decide

/-- C3 (amended). With a valid session UUID and a working database, the
watermark check fires iff the durable turn count is a strictly positive
multiple of 50; and firing is not idempotent per multiple: whenever the check
fires, it fires again on the state the summary step leaves behind (the
deletion keeps the newest 50 rows, so the count is again a positive multiple
and nothing records the multiple already handled). -/
theorem c3_trigger_iff_positive_multiple_and_refires :
    (∀ c : Nat, MemoryManager.summary_trigger c = true ↔ (0 < c ∧ c % 50 = 0))
    ∧ (∀ env : Env, ∀ pg : PgState, MemoryManager.compaction_fires env pg = true →
        MemoryManager.compaction_fires env (MemoryManager.trigger_summary_agents env pg) = true) := by
  constructor
  · intro c
    simp only [MemoryManager.summary_trigger, Bool.and_eq_true, decide_eq_true_eq]
    omega
  · intro env pg h
    simp only [MemoryManager.compaction_fires, Bool.and_eq_true, decide_eq_true_eq,
      MemoryManager.summary_trigger] at h ⊢
    obtain ⟨⟨hu, hd⟩, hc50, hcmod⟩ := h
    refine ⟨⟨hu, hd⟩, ?_⟩
    simp only [MemoryManager.trigger_summary_agents, hu, hd, Bool.and_self, if_true,
      MemoryManager.delete_old_messages, List.length_drop]
    omega

/-- C3 witness: the amended theorem applied at the concrete count 50 and at
the concrete 50-turn durable state. -/
theorem c3_trigger_iff_witness :
    MemoryManager.summary_trigger 50 = true
    ∧ MemoryManager.compaction_fires envOk
        (MemoryManager.trigger_summary_agents envOk pg50) = true :=
  ⟨(c3_trigger_iff_positive_multiple_and_refires.1 50).mpr (by decide),
   c3_trigger_iff_positive_multiple_and_refires.2 envOk pg50 (by decide)⟩

/-- C7. The sliding-window split is a partition of the pre-eviction buffer:
with `keep = max_buffer_messages / 2` (integer division) and a buffer longer
than `max_buffer_messages`, the eviction set followed by the retained set is
the whole buffer (so the parts are disjoint by position and keep the original
order), the eviction set is exactly the oldest `length - keep` turns, the
retained set is exactly the newest `keep` turns, the buffer after the step is
the retained set, and on a successful durable write the rows appended to the
archive are exactly the eviction set. Stated for `2 ≤ max_buffer_messages`;
the program constructs every `MemoryManager` with the default 50. -/
theorem c7_sliding_window_partition (maxBuf : Nat) (env : Env)
    (st : RedisState) (pg : PgState)
    (hmax : 2 ≤ maxBuf) (hlen : maxBuf < st.buffer.length) :
    pyDropTail (maxBuf / 2) st.buffer ++ pyTail (maxBuf / 2) st.buffer = st.buffer
    ∧ pyDropTail (maxBuf / 2) st.buffer
        = st.buffer.take (st.buffer.length - maxBuf / 2)
    ∧ pyTail (maxBuf / 2) st.buffer
        = st.buffer.drop (st.buffer.length - maxBuf / 2)
    ∧ (pyTail (maxBuf / 2) st.buffer).length = maxBuf / 2
    ∧ (pyDropTail (maxBuf / 2) st.buffer).length = st.buffer.length - maxBuf / 2
    ∧ (MemoryManager.apply_sliding_window maxBuf env st pg).1.buffer
        = pyTail (maxBuf / 2) st.buffer
    ∧ (env.validUuid = true → env.dbOk = true →
        (MemoryManager.apply_sliding_window maxBuf env st pg).2.turns
          = pg.turns ++ pyDropTail (maxBuf / 2) st.buffer) := by
  have hk : maxBuf / 2 ≠ 0 := by omega
  have hkpos : 0 < maxBuf / 2 := Nat.pos_of_ne_zero hk
  have hkle : maxBuf / 2 ≤ st.buffer.length := by omega
  have htake : pyDropTail (maxBuf / 2) st.buffer
      = st.buffer.take (st.buffer.length - maxBuf / 2) := by
    simp only [pyDropTail, if_neg hk]
  have hdrop : pyTail (maxBuf / 2) st.buffer
      = st.buffer.drop (st.buffer.length - maxBuf / 2) := by
    simp only [pyTail, if_neg hk]
  have happend : pyDropTail (maxBuf / 2) st.buffer ++ pyTail (maxBuf / 2) st.buffer
      = st.buffer := by
    rw [htake, hdrop, List.take_append_drop]
  have hlendrop : (pyTail (maxBuf / 2) st.buffer).length = maxBuf / 2 := by
    rw [hdrop, List.length_drop]
    omega
  have hlentake : (pyDropTail (maxBuf / 2) st.buffer).length
      = st.buffer.length - maxBuf / 2 := by
    rw [htake, List.length_take]
    omega
  have hnonempty : (pyDropTail (maxBuf / 2) st.buffer).isEmpty = false := by
    have : (pyDropTail (maxBuf / 2) st.buffer).length ≠ 0 := by omega
    cases hcase : pyDropTail (maxBuf / 2) st.buffer with
    | nil => rw [hcase] at this; simp at this
    | cons a l => rfl
  refine ⟨happend, htake, hdrop, hlendrop, hlentake, ?_, ?_⟩
  · simp only [MemoryManager.apply_sliding_window, ConversationBuffer.trim_conversation,
      if_pos hkpos, hdrop]
  · intro hu hd
    simp only [MemoryManager.apply_sliding_window, hnonempty, Bool.false_eq_true,
      if_false, MemoryManager.save_messages_to_postgres, hu, hd, if_true]

/-- C7 witness: the partition theorem applied at a 3-turn buffer with
`max_buffer_messages = 2` (`keep = 1`) and a working environment. -/
theorem c7_sliding_window_partition_witness :
    pyDropTail 1 (st21.buffer.take 3) ++ pyTail 1 (st21.buffer.take 3)
      = st21.buffer.take 3
    ∧ (MemoryManager.apply_sliding_window 2 envOk { buffer := st21.buffer.take 3 } emptyPg).2.turns
        = emptyPg.turns ++ pyDropTail 1 (st21.buffer.take 3) :=
  ⟨(c7_sliding_window_partition 2 envOk { buffer := st21.buffer.take 3 } emptyPg
      (by decide) (by decide)).1,
   (c7_sliding_window_partition 2 envOk { buffer := st21.buffer.take 3 } emptyPg
      (by decide) (by decide)).2.2.2.2.2.2 rfl rfl⟩

/-- Intent result shared by the concrete pipeline runs. -/
def intentOk : IntentAgentOutput :=
  { user_id := "u1", clean_intent_text := "hoi gia", intent_code := "product_inquiry",
    confidence := 1 }

/-- Handoff analysis requiring escalation (high risk, reason given). -/
def handoffYes : AnalyseHandoffOutput :=
  { user_id := "u1", policy_flags := {}, handoff_required := true,
    handoff_reason := some "angry customer", risk_level := "high", confidence := 1 }

/-- Handoff analysis reporting no risk. -/
def handoffNo : AnalyseHandoffOutput :=
  { user_id := "u1", policy_flags := {}, handoff_required := false,
    handoff_reason := none, risk_level := "low", confidence := 1 }

/-- A one-element DB catalog, keeping the candidate-building path on its
normal branch. -/
def oneCombo : List ProductCombo :=
  [{ combo_id := "SKU-1", products := ["ao thun"], stock := 3, price := 100 }]

/-- Run for C4: no escalation, routing falls back deterministically to
`sales_task`, guardrail approves the sales text unchanged. -/
def paramsC4 : PipelineParams :=
  { userId := "u1", rawMessage := "hello", now := 0, env := envOk,
    intentRes := intentOk, handoffRes := handoffNo,
    routingLlm := .noJson "gibberish",
    reqExplicit := [], reqImplicit := [], dbCombos := oneCombo,
    upsellSelected := none, salesText := "dạ vâng",
    guardRes := { approved := true } }

/-- C4. Counter-evidence by evaluation: loading the short-term memory for the
downstream agents (`get_conversation_history(max_messages=20)`) LTRIMs the
stored hot buffer before reading it. Starting a pipeline run with 21 turns
buffered, the run completes normally, the oldest turn is gone from the hot
buffer, and the durable store received nothing — a read deleted a turn
without any archive write. -/
theorem c4_history_read_deletes_unarchived_turns :
    (get_conversation_history (some 20) st21).1.buffer.length = 20
    ∧ mkTurn 0 ∈ st21.buffer
    ∧ mkTurn 0 ∉ (get_conversation_history (some 20) st21).1.buffer
    ∧ (process_user_message paramsC4 st21 emptyPg).map (fun r => r.pg.turns)
        = Except.ok []
    ∧ (process_user_message paramsC4 st21 emptyPg).map
        (fun r => decide (mkTurn 0 ∈ r.redis.buffer)) = Except.ok false := by
  refine ⟨rfl, by decide, by decide, rfl, rfl⟩

/-- Run for C5 and its witness: escalation required, routing falls back to
`human_handle`, guardrail rejects. -/
def paramsC5 : PipelineParams :=
  { userId := "u1", rawMessage := "hello", now := 0, env := envOk,
    intentRes := intentOk, handoffRes := handoffYes,
    routingLlm := .noJson "gibberish",
    reqExplicit := [], reqImplicit := [], dbCombos := oneCombo,
    upsellSelected := none, salesText := "xin chào quý khách",
    guardRes := { approved := false } }

/-- C5. Counterexample: on a run whose routed task is `human_handle` and
whose guardrail returns `approved = false`, the delivered text is the
escalation notice followed by the fallback — not the fallback string
verbatim. -/
theorem c5_reject_not_verbatim_under_escalation :
    paramsC5.guardRes.approved = false
    ∧ (process_user_message paramsC5 emptyRedis emptyPg).map
        (fun r => r.final_response_text)
        = Except.ok (handoff_note ++ fallback_response)
    ∧ handoff_note ++ fallback_response ≠ fallback_response := by
  refine ⟨rfl, rfl, by decide⟩

/-- C5 (amended). For every completed pipeline run: when the guardrail
rejects, the delivered text is the fixed fallback string, prefixed with the
escalation notice exactly when the routed task is `human_handle`; when the
guardrail approves, it is the guardrail's modified text when one is given
(non-null, non-empty), otherwise the sales response unchanged, with the same
prefix rule. -/
theorem c5_final_text_rule (p : PipelineParams) (st : RedisState) (pg : PgState)
    (orch : OrchestratorAgentOutput) (r : PipelineResult)
    (hrun : orchestratorAgentRun (orchInputOf p) p.routingLlm = Except.ok orch)
    (hok : process_user_message p st pg = Except.ok r) :
    r.final_response_text =
      if orch.task = "human_handle" then
        handoff_note ++ (if p.guardRes.approved then
          pyOrStr p.guardRes.modified_text p.salesText else fallback_response)
      else
        (if p.guardRes.approved then
          pyOrStr p.guardRes.modified_text p.salesText else fallback_response) := by
  simp only [process_user_message, hrun] at hok
  by_cases htask : orch.task = "sales_task" ∨ orch.task = "human_handle"
  · rw [if_pos htask] at hok
    cases hav : available_combos p.dbCombos with
    | error e => rw [hav] at hok; exact absurd hok (by simp)
    | ok combos =>
        rw [hav] at hok
        cases hok
        rfl
  · rw [if_neg htask] at hok
    exact absurd hok (by simp)

/-- The routing output of `paramsC5`: the parse-failure fallback with
`handoff_required = true` routes to `human_handle`. -/
def orchC5 : OrchestratorAgentOutput :=
  { user_id := "u1", task := "human_handle", clean_intent_text := "hoi gia",
    intent_code := "product_inquiry", policy_flags := {}, handoff_required := true,
    handoff_reason := some "angry customer", risk_level := "high",
    task_reason := some "Fallback task selection" }

/-- The completed run of `paramsC5` from empty states. -/
def resC5 : PipelineResult :=
  { final_response_text := handoff_note ++ fallback_response,
    redis := { buffer :=
      [{ role := "user", content := "hello", tokens := 0, intent := none, timestamp := 0 },
       { role := "assistant", content := handoff_note ++ fallback_response, tokens := 0,
         intent := some "product_inquiry", timestamp := 0 }] },
    pg := { turns := [], sessionExists := true, handoff_reason := some "angry customer" } }

/-- C5 witness: the final-text rule applied to the concrete rejected,
escalated run. -/
theorem c5_final_text_rule_witness :
    resC5.final_response_text = handoff_note ++ fallback_response :=
  (c5_final_text_rule paramsC5 emptyRedis emptyPg orchC5 resC5 rfl rfl).trans rfl

/-- Run for C8: the handoff analysis demands escalation but the routing LLM
replies with decodable JSON hinting `sales_task`; guardrail approves. -/
def paramsC8 : PipelineParams :=
  { userId := "u1", rawMessage := "hello", now := 0, env := envOk,
    intentRes := intentOk, handoffRes := handoffYes,
    routingLlm := .json { task := some "sales_task" },
    reqExplicit := [], reqImplicit := [], dbCombos := oneCombo,
    upsellSelected := none, salesText := "xin chào quý khách",
    guardRes := { approved := true } }

/-- C8. Counter-evidence by evaluation: with `handoff_required = true` but a
routing reply hinting `sales_task`, the run completes with the plain sales
text — it neither begins with nor contains the escalation notice — and the
durable session keeps `handoff_reason = null`: nothing is persisted because
the `human_handle` branch never runs. -/
theorem c8_escalation_dropped_on_routing_hint :
    paramsC8.handoffRes.handoff_required = true
    ∧ (process_user_message paramsC8 emptyRedis emptyPg).map
        (fun r => r.final_response_text) = Except.ok paramsC8.salesText
    ∧ strContains paramsC8.salesText.data handoff_note.data = false
    ∧ (process_user_message paramsC8 emptyRedis emptyPg).map
        (fun r => r.pg.handoff_reason) = Except.ok none
    ∧ (process_user_message paramsC8 emptyRedis emptyPg).map
        (fun r => r.pg.sessionExists) = Except.ok false := by
  refine ⟨rfl, rfl, by decide, rfl, rfl⟩

/-- The raw price question of the demo scenario. -/
def hoodie_message : String := "giá áo hoodie bao nhiêu"

/-- The hoodie combo among the demo candidates. -/
def hoodie_combo : ProductCombo :=
  { combo_id := "DEMO-03", products := ["ao_hoodie"], stock := 12, price := 499000 }

/-- C9. Offer-selection fallback: whenever the offer-selection step yields no
candidate (its id resolves to nothing) and the raw message carries a
price/availability keyword, the orchestrator's selection equals the
deterministic keyword-overlap heuristic over the candidate names; and on the
demo combos the heuristic — hence the whole selection — picks the hoodie
combo for the message "giá áo hoodie bao nhiêu" (the `hoodie` keyword group
occurs in the message and in the combo's product name). -/
theorem c9_price_fallback_selects_hoodie (raw : String)
    (expl impl : List String) (sel : Option String) (combos : List ProductCombo)
    (hsel : lookup_selected_combo sel combos = none)
    (hprice : maybe_price_intent raw = true) :
    select_combo raw expl impl sel combos = heuristic_pick_combo raw expl impl combos
    ∧ select_combo hoodie_message [] [] none demo_combos = some hoodie_combo
    ∧ heuristic_pick_combo hoodie_message [] [] demo_combos = some hoodie_combo := by
  refine ⟨?_, by decide, by decide⟩
  simp only [select_combo, hsel, hprice, if_true]

/-- C9 witness: the fallback theorem applied at the demo scenario itself. -/
theorem c9_price_fallback_selects_hoodie_witness :
    select_combo hoodie_message [] [] none demo_combos
      = heuristic_pick_combo hoodie_message [] [] demo_combos :=
  (c9_price_fallback_selects_hoodie hoodie_message [] [] none demo_combos (by decide)
    (by decide)).1

/-- Hot-buffer frame of `receive_input`: every turn buffered after the call
was already buffered before it or is the turn this call appended (the call
only appends and trims). -/
theorem receive_input_buffer_mem (maxBuf : Nat) (env : Env) (role content : String)
    (tokens : Nat) (intent : Option String) (now : Nat)
    (st : RedisState) (pg : PgState) :
    ∀ m ∈ (MemoryManager.receive_input maxBuf env role content tokens intent now st pg).1.buffer,
      m ∈ st.buffer ∨ m = { role := role, content := content, tokens := tokens,
                            intent := intent, timestamp := now } := by
  intro m hm
  have hsub : (MemoryManager.receive_input maxBuf env role content tokens intent now st pg).1.buffer
      ⊆ st.buffer ++ [{ role := role, content := content, tokens := tokens,
                        intent := intent, timestamp := now }] := by
    simp only [MemoryManager.receive_input, ConversationBuffer.add_message]
    split
    · simp only [MemoryManager.apply_sliding_window, ConversationBuffer.trim_conversation]
      split
      · exact List.drop_subset _ _
      · exact fun x hx => hx
    · exact fun x hx => hx
  rcases List.mem_append.mp (hsub hm) with h | h
  · exact Or.inl h
  · exact Or.inr (List.mem_singleton.mp h)

/-- C10. If the routing step returns any task string other than
`"sales_task"` and `"human_handle"`, the sales block is skipped and the
assistant `receive_input` call reads the never-assigned
`final_response_text`: the run raises `UnboundLocalError`, leaving both
memory tiers exactly as the user-turn reception left them — in particular no
assistant turn was stored (every buffered turn predates the call or is the
user turn) and no response is returned. -/
theorem c10_unknown_task_raises_unbound_local (p : PipelineParams)
    (st : RedisState) (pg : PgState) (orch : OrchestratorAgentOutput)
    (hrun : orchestratorAgentRun (orchInputOf p) p.routingLlm = Except.ok orch)
    (h1 : orch.task ≠ "sales_task") (h2 : orch.task ≠ "human_handle") :
    process_user_message p st pg =
      Except.error ("UnboundLocalError: final_response_text referenced before assignment",
        (MemoryManager.receive_input 50 p.env "user" p.rawMessage 0 none p.now st pg).1,
        (MemoryManager.receive_input 50 p.env "user" p.rawMessage 0 none p.now st pg).2)
    ∧ ∀ m ∈ (MemoryManager.receive_input 50 p.env "user" p.rawMessage 0 none p.now st pg).1.buffer,
        m ∈ st.buffer ∨ m.role = "user" := by
  constructor
  · simp only [process_user_message, hrun]
    rw [if_neg (not_or.mpr ⟨h1, h2⟩)]
  · intro m hm
    rcases receive_input_buffer_mem 50 p.env "user" p.rawMessage 0 none p.now st pg m hm with
      h | h
    · exact Or.inl h
    · exact Or.inr (by rw [h])

/-- Run for the C10 witness: the routing LLM decodes to an out-of-contract
task string. -/
def paramsC10 : PipelineParams :=
  { userId := "u1", rawMessage := "hello", now := 0, env := envOk,
    intentRes := intentOk, handoffRes := handoffYes,
    routingLlm := .json { task := some "other_task" },
    reqExplicit := [], reqImplicit := [], dbCombos := oneCombo,
    upsellSelected := none, salesText := "xin chào quý khách",
    guardRes := { approved := true } }

/-- The routing output of `paramsC10`: the decoded task is passed through
unchanged, the other fields backfilled from the input (except
`handoff_reason`). -/
def orchC10 : OrchestratorAgentOutput :=
  { user_id := "u1", task := "other_task", clean_intent_text := "hoi gia",
    intent_code := "product_inquiry", policy_flags := {}, handoff_required := true,
    handoff_reason := none, risk_level := "high", task_reason := none }

/-- C10 witness: the crash theorem applied at the concrete run with task
`"other_task"` from empty states. -/
theorem c10_unknown_task_raises_unbound_local_witness :
    process_user_message paramsC10 emptyRedis emptyPg =
      Except.error ("UnboundLocalError: final_response_text referenced before assignment",
        (MemoryManager.receive_input 50 paramsC10.env "user" paramsC10.rawMessage 0 none
          paramsC10.now emptyRedis emptyPg).1,
        (MemoryManager.receive_input 50 paramsC10.env "user" paramsC10.rawMessage 0 none
          paramsC10.now emptyRedis emptyPg).2) :=
  (c10_unknown_task_raises_unbound_local paramsC10 emptyRedis emptyPg orchC10 rfl
    (by decide) (by decide)).1
